import Mathlib

/-!
Verification development for the absence-record CRUD application
(`src/main.py` of CRUD_REGISTRO_ATESTADOS).

Shallow embedding conventions:

* Calendar dates are represented by their proleptic-Gregorian day number
  (rata die, as an `Int`), which is exactly the arithmetic Python's
  `datetime.date` / `timedelta` implements.  `daysFromCivil y m d` converts
  a civil year/month/day triple to that day number.
  The application writes dates with `strftime('%Y-%m-%d')` and re-parses
  them with `pd.to_datetime`; since that round trip is the identity on
  valid dates, stored date cells are modelled as `Option Int`
  (`none` = `NaN`/`NaT`, i.e. a missing or unparseable date).
* A pandas DataFrame row cell is `Option String` (`none` = `NaN`).
* The DataFrame holding the records is a list of `(label, Record)` pairs:
  pandas row labels are explicit because `drop`, `.loc` reads and `.loc`
  writes address rows by label, and `reset_index` / `ignore_index`
  relabel the rows `0, 1, 2, ...` (modelled with `List.enum`).
* The external Gemini call inside `pesquisar_cid` is an oracle
  `svc : String → SvcResult`; the functions that can invoke it also
  return the number of external service invocations they performed.
* `@st.cache_data` on `pesquisar_cid` is a memo table keyed by the raw
  argument of the call; both operations compared by the temporal claims
  are assumed to happen inside the one-hour TTL window, so expiry is not
  modelled.  `st.cache_data.clear()` empties the table.
-/

/-! ## Python string primitives

Python's `.upper()`, `.strip()`, `in`, and `int(...)`/date parsing are
embedded as structurally recursive functions on the character list of a
`String` (Lean's own `String.trim`/`String.splitOn` are defined by
well-founded recursion on byte positions and do not evaluate inside the
kernel, which the concrete witnesses below need). -/

/-- Python `s.upper()`. -/
def pyUpper (s : String) : String := ⟨s.data.map Char.toUpper⟩

/-- Python `s.strip()`: drop leading and trailing whitespace. -/
def pyStrip (s : String) : String :=
  ⟨((s.data.dropWhile Char.isWhitespace).reverse.dropWhile
      Char.isWhitespace).reverse⟩

/-- Does `pat` occur at the head of `xs`? -/
def leadsWith : List Char → List Char → Bool
  | [], _ => true
  | _ :: _, [] => false
  | a :: as, b :: bs => a = b && leadsWith as bs

/-- Does `pat` occur as a contiguous sublist of `xs`? -/
def occursIn (pat : List Char) : List Char → Bool
  | [] => pat.isEmpty
  | x :: t => leadsWith pat (x :: t) || occursIn pat t

/-- Python `pat in s` substring test. -/
def containsSub (s pat : String) : Bool := occursIn pat.data s.data

/-- Digit-string to number, `none` unless the string is one or more
digits (the semantics of `String.toNat?`). -/
def digitsToNat? (xs : List Char) : Option Nat :=
  if xs ≠ [] ∧ xs.all Char.isDigit then
    some (xs.foldl (fun a c => a * 10 + (c.toNat - 48)) 0)
  else none

/-- Python `int(s)` on an optionally-signed digit string, as `Option`. -/
def strToInt? (s : String) : Option Int :=
  match s.data with
  | '-' :: rest => (digitsToNat? rest).map (fun n => -(n : Int))
  | xs => (digitsToNat? xs).map (fun n => (n : Int))

/-- Split a character list at every `'-'`. -/
def splitOnDash : List Char → List (List Char)
  | [] => [[]]
  | x :: t =>
    match splitOnDash t with
    | [] => [[]]
    | h :: r => if x = '-' then [] :: h :: r else (x :: h) :: r

/-! ## Calendar arithmetic (the semantics of `datetime.date` + `timedelta`) -/

def isLeap (y : Int) : Bool :=
  y % 4 = 0 && (y % 100 ≠ 0 || y % 400 = 0)

def daysInMonth (y m : Int) : Int :=
  if m = 2 then (if isLeap y then 29 else 28)
  else if m = 4 ∨ m = 6 ∨ m = 9 ∨ m = 11 then 30
  else 31

/-- Day number of the civil date `y-m-d` in the proleptic Gregorian
calendar (0 = 1970-01-01), the standard days-from-civil conversion. -/
def daysFromCivil (y m d : Int) : Int :=
  let y' := if m ≤ 2 then y - 1 else y
  let era := y'.fdiv 400
  let yoe := y' - era * 400
  let mp := (m + 9) % 12
  let doy := (153 * mp + 2).fdiv 5 + d - 1
  let doe := yoe * 365 + yoe.fdiv 4 - yoe.fdiv 100 + doy
  era * 146097 + doe - 719468

/-- `calcular_datas` (src/main.py:132-139): `data_final = data_inicio +
timedelta(days=dias - 1)`, `data_retorno = data_final + timedelta(days=1)`;
`timedelta` addition is addition on the day number. -/
def calcular_datas (data_inicio : Int) (dias : Int) : Int × Int :=
  let data_final := data_inicio + (dias - 1)
  let data_retorno := data_final + 1
  (data_final, data_retorno)

/-- Parse an ISO `YYYY-MM-DD` string to a day number; anything invalid
yields `none` (modelling `pd.to_datetime(..., errors='coerce')` giving
`NaT` on the strings this application stores). -/
def parseISO (s : String) : Option Int :=
  match splitOnDash s.data with
  | [ys, ms, ds] =>
    match digitsToNat? ys, digitsToNat? ms, digitsToNat? ds with
    | some y, some m, some d =>
      if 1 ≤ m ∧ m ≤ 12 ∧ 1 ≤ d ∧ (d : Int) ≤ daysInMonth y m then
        some (daysFromCivil y m d)
      else none
    | _, _, _ => none
  | _ => none

/-! ## The CID lookup (`pesquisar_cid`, src/main.py:103-130) and its cache -/

/-- Outcome of one call to the external Gemini service. -/
inductive SvcResult where
  | ok (text : String)
  | apiError (detail : String)
  | otherError (detail : String)
deriving DecidableEq

/-- The external service as an oracle from the (normalized) CID code to
the outcome of the `generate_content` call. -/
def Svc := String → SvcResult

/-- Body of `pesquisar_cid` (src/main.py:104-130), without the
`@st.cache_data` decorator.  Returns the text together with the number of
external service invocations made (0 or 1). -/
def pesquisar_cid (svc : Svc) (codigo_cid : String) : String × Nat :=
  let c := pyUpper (pyStrip codigo_cid)
  if c = "" then ("N/A - Nenhum CID fornecido.", 0)
  else
    match svc c with
    | .ok t =>
      let descricao := pyStrip t
      if containsSub descricao "CÓDIGO INVÁLIDO" ∨ containsSub descricao "NÃO ENCONTRADO" then
        ("Código não encontrado ou inválido.", 1)
      else (descricao, 1)
    | .apiError e =>
      ("Erro na API do Gemini: Verifique sua chave e cota. Detalhe: " ++ e, 1)
    | .otherError e =>
      ("Erro inesperado na pesquisa do CID: " ++ e, 1)

/-- The `@st.cache_data` memo table of `pesquisar_cid`: raw argument ↦
cached return value. -/
abbrev Cache := List (String × String)

def cacheLookup (cache : Cache) (arg : String) : Option String :=
  match cache with
  | [] => none
  | (k, v) :: rest => if k = arg then some v else cacheLookup rest arg

/-- `pesquisar_cid` as called through `@st.cache_data`: a hit returns the
memoized value with no external call; a miss runs the body and memoizes
whatever it returned. -/
def pesquisar_cid_cached (svc : Svc) (cache : Cache) (arg : String) :
    String × Cache × Nat :=
  match cacheLookup cache arg with
  | some v => (v, cache, 0)
  | none =>
    let (r, n) := pesquisar_cid svc arg
    (r, (arg, r) :: cache, n)

/-! ## The record store -/

/-- One row of the `df_atestados` DataFrame.  Cells are `Option`-valued
because pandas cells can be `NaN`; date cells hold the parsed day number
(see the header comment). -/
structure Record where
  nome : Option String
  dataInicio : Option Int
  dias : Option Int
  dataFinal : Option Int
  cid : Option String
  tipo : Option String
  motivo : Option String
deriving DecidableEq

/-- The mutable application state: `st.session_state.df_atestados`
(label-indexed rows), the `pesquisar_cid` cache, and the rows last
written to `atestados_registrados.csv` by `save_data`. -/
structure AppState where
  records : List (Nat × Record)
  cache : Cache
  persisted : List (Nat × Record)
deriving DecidableEq

def labels (rs : List (Nat × Record)) : List Nat := rs.map Prod.fst

/-- `df.loc[i, col]` row access: the row whose label is `i`, if any. -/
def lookupRow (rs : List (Nat × Record)) (i : Nat) : Option Record :=
  (rs.find? (fun p => p.1 = i)).map Prod.snd

/-- Writing every column of row `i` with `df.loc[i, col] = v`: if the
label exists the row is replaced in place; if not, pandas *enlarges* the
frame, appending a new row with that label. -/
def locWrite (rs : List (Nat × Record)) (i : Nat) (r : Record) :
    List (Nat × Record) :=
  if rs.any (fun p => p.1 = i) then
    rs.map (fun p => if p.1 = i then (i, r) else p)
  else rs ++ [(i, r)]

/-! ## CRUD operations (src/main.py:143-230) -/

inductive OpErr where
  | keyError
deriving DecidableEq

/-- The `if/elif` chain of `add_record` (src/main.py:149-169) deriving
`(descricao_final, cid_final)` from the category, plus the cache/call
accounting of the `pesquisar_cid` invocation it may make. -/
def add_derive (svc : Svc) (cache : Cache) (tipo cid motivo_texto : String) :
    String × String × Cache × Nat :=
  if tipo = "Atestado" then
    let (descricao_cid, c1, n) := pesquisar_cid_cached svc cache cid
    (cid ++ " - " ++ descricao_cid, cid, c1, n)
  else if tipo = "Folga" then (motivo_texto, "", cache, 0)
  else if tipo = "Banco de Horas" then
    ("Compensação de Banco de Horas", "", cache, 0)
  else if tipo = "Falta" then ("Falta", "", cache, 0)
  else ("", "", cache, 0)

/-- `add_record` (src/main.py:143-186).  Computes the dates, derives
`descricao_final`/`cid_final` by category, appends the new row with
`pd.concat(..., ignore_index=True)` (which relabels every row `0..n`),
saves, and ends with `st.cache_data.clear()`.  Returns the new state and
the number of external service invocations. -/
def add_record (svc : Svc) (st : AppState) (nome : String)
    (data_inicio : Int) (dias : Int) (tipo : String)
    (cid : String) (motivo_texto : String) : AppState × Nat :=
  let df := st.records
  let data_final := (calcular_datas data_inicio dias).1
  let d := add_derive svc st.cache tipo cid motivo_texto
  let novo_registro : Record :=
    { nome := some nome, dataInicio := some data_inicio, dias := some dias,
      dataFinal := some data_final, cid := some d.2.1,
      tipo := some tipo, motivo := some d.1 }
  let recs := ((df.map Prod.snd) ++ [novo_registro]).enum
  ({ records := recs, cache := [], persisted := recs }, d.2.2.2)

/-- `delete_record` (src/main.py:188-194).  `df.drop(index)` raises
`KeyError` when the label is absent (nothing is assigned or saved);
otherwise the row is removed, `reset_index(drop=True)` relabels the rest,
the frame is saved and `st.cache_data.clear()` runs. -/
def delete_record (st : AppState) (index : Nat) : Except OpErr AppState :=
  if st.records.any (fun p => p.1 = index) then
    let recs := ((st.records.filter (fun p => ¬ p.1 = index)).map Prod.snd).enum
    .ok { records := recs, cache := [], persisted := recs }
  else .error .keyError

/-- `update_record` (src/main.py:196-230).  For `tipo_original ==
'Atestado'` it first reads `df.loc[index, 'CID']` (raising `KeyError` if
the label is absent) and re-runs `pesquisar_cid` when the stored CID
differs from the supplied one; for every other category the CID is
forced empty and the original reason kept.  It then writes all seven
columns of row `index` with `df.loc` (which *enlarges* the frame when the
label is absent) and saves.  No `st.cache_data.clear()` here.

`update_step` is the reason/CID derivation part (src/main.py:202-216);
`update_record` below adds the column writes and the save. -/
def update_step (svc : Svc) (st : AppState) (index : Nat) (cid : String)
    (tipo_original : Option String) (motivo_original : Option String) :
    Except OpErr (Option String × String × Cache × Nat) :=
  if tipo_original = some "Atestado" then
    match lookupRow st.records index with
    | none => .error .keyError
    | some row =>
      if ¬ row.cid = some cid then
        let (descricao_cid, c1, n) := pesquisar_cid_cached svc st.cache cid
        .ok (some (cid ++ " - " ++ descricao_cid), cid, c1, n)
      else .ok (motivo_original, cid, st.cache, 0)
  else .ok (motivo_original, "", st.cache, 0)

def update_record (svc : Svc) (st : AppState) (index : Nat) (nome : String)
    (data_inicio : Int) (dias : Int) (cid : String)
    (tipo_original : Option String) (motivo_original : Option String) :
    Except OpErr (AppState × Nat) :=
  let df := st.records
  let data_final := (calcular_datas data_inicio dias).1
  match update_step svc st index cid tipo_original motivo_original with
  | .error e => .error e
  | .ok (new_motive, cid_to_save, cache1, calls) =>
    let row' : Record :=
      { nome := some nome, dataInicio := some data_inicio, dias := some dias,
        dataFinal := some data_final, cid := some cid_to_save,
        tipo := tipo_original, motivo := new_motive }
    let recs := locWrite df index row'
    .ok ({ records := recs, cache := cache1, persisted := recs }, calls)

/-! ## The add forms (src/main.py:264-415): validation happens here -/

inductive FormError where
  | validationError
deriving DecidableEq

/-- Python truthiness of the `nome_final` value. -/
def truthy : Option String → Bool
  | none => false
  | some s => s ≠ ""

/-- `nome_final = nome.strip() if nome else None` (an empty selectbox
gives `None`, an empty text input gives `""`, both falsy). -/
def nome_final_of : Option String → Option String
  | none => none
  | some s => if s = "" then none else some (pyStrip s)

/-- Submit handler of `new_record_atestado_form` (src/main.py:284-297):
the CID input is `.upper().strip()`-normalized, and the record is added
only when both the name and the CID are non-empty; otherwise an error is
shown and the state is untouched. -/
def submit_atestado (svc : Svc) (st : AppState) (nome : Option String)
    (data_inicio : Int) (dias : Int) (cidInput : String) :
    AppState × Option FormError × Nat :=
  let cid := pyStrip (pyUpper cidInput)
  let nome_final := nome_final_of nome
  if truthy nome_final ∧ cid ≠ "" then
    let (st', n) := add_record svc st (nome_final.getD "") data_inicio dias "Atestado" cid ""
    (st', none, n)
  else (st, some .validationError, 0)

/-- Submit handler of `new_record_banco_form` (src/main.py:328-333). -/
def submit_banco (svc : Svc) (st : AppState) (nome : Option String)
    (data_inicio : Int) (dias : Int) : AppState × Option FormError × Nat :=
  let nome_final := nome_final_of nome
  if truthy nome_final then
    let (st', n) := add_record svc st (nome_final.getD "") data_inicio dias "Banco de Horas" "" ""
    (st', none, n)
  else (st, some .validationError, 0)

/-- Submit handler of `new_record_falta_form_simple` (src/main.py:364-370). -/
def submit_falta (svc : Svc) (st : AppState) (nome : Option String)
    (data_inicio : Int) (dias : Int) : AppState × Option FormError × Nat :=
  let nome_final := nome_final_of nome
  if truthy nome_final then
    let (st', n) := add_record svc st (nome_final.getD "") data_inicio dias "Falta" "" ""
    (st', none, n)
  else (st, some .validationError, 0)

/-- Submit handler of `new_record_folga_form_motivo` (src/main.py:394-415):
the free-text reason is `.strip()`-ed; an empty reason is rejected first,
then an empty name. -/
def submit_folga (svc : Svc) (st : AppState) (nome : Option String)
    (data_inicio : Int) (dias : Int) (motivoInput : String) :
    AppState × Option FormError × Nat :=
  let motivo_livre := pyStrip motivoInput
  let nome_final := nome_final_of nome
  if motivo_livre = "" then (st, some .validationError, 0)
  else if truthy nome_final then
    let (st', n) := add_record svc st (nome_final.getD "") data_inicio dias "Folga" "" motivo_livre
    (st', none, n)
  else (st, some .validationError, 0)

/-! ## `load_data` (src/main.py:30-73) -/

/-- A raw CSV table as `pd.read_csv` returns it: a header and rows of
cells aligned with it (`none` = an empty cell, read as `NaN`). -/
structure RawTable where
  cols : List String
  rows : List (List (Option String))
deriving DecidableEq

/-- The store file on disk, as `load_data` can encounter it. -/
inductive StoreFile where
  | missing
  | unreadable
  | readable (t : RawTable)
deriving DecidableEq

/-- The `col_mapping` rename of legacy column names (src/main.py:39-48). -/
def renameCol (c : String) : String :=
  if c = "Nome do Colaborador" then "Nome_do_Colaborador"
  else if c = "Data de Início" then "Data_de_Inicio"
  else if c = "Data Final" then "Data_Final"
  else if c = "Descricao CID" then "Motivo"
  else if c = "Descricao_CID" then "Motivo"
  else if c = "Descricao_do_CID" then "Motivo"
  else c

/-- Read cell `c` of a row aligned with header `cols`. -/
def getCell (cols : List String) (row : List (Option String)) (c : String) :
    Option String :=
  match cols.findIdx? (fun x => x = c) with
  | some i => (row.get? i).getD none
  | none => none

/-- Cell of a (renamed) row as seen after the `Tipo` back-fill, the
`Motivo`/`CID` back-fill, and `reindex(columns=COLUMNS, fill_value='')`:
a missing `Tipo` column reads as `'Atestado'` (the back-fill lambda of
src/main.py:53 yields `'Atestado'` on every row), any other missing
expected column reads as `''`, and a present column reads its cell. -/
def loadCell (cols : List String) (row : List (Option String))
    (c : String) : Option String :=
  if c = "Tipo" ∧ ¬ cols.contains "Tipo" then some "Atestado"
  else if cols.contains c then getCell cols row c
  else some ""

/-- One migrated row: the date columns go through
`pd.to_datetime(..., errors='coerce')`. -/
def loadRec (cols : List String) (row : List (Option String)) : Record :=
  { nome := loadCell cols row "Nome_do_Colaborador",
    dataInicio := (loadCell cols row "Data_de_Inicio").bind parseISO,
    dias := (loadCell cols row "Dias").bind strToInt?,
    dataFinal := (loadCell cols row "Data_Final").bind parseISO,
    cid := loadCell cols row "CID",
    tipo := loadCell cols row "Tipo",
    motivo := loadCell cols row "Motivo" }

/-- `load_data`.  Returns the loaded label-indexed rows together with a
flag that is `true` iff the `st.warning` fallback path ran.

Faithful points: the rename runs first; a missing `Tipo` column is
back-filled from `df['CID'].apply(lambda x: 'Atestado' if ... else
'Atestado')` — the lambda yields `'Atestado'` on *every* row, and when the
`CID` column is also absent the `df['CID']` access raises `KeyError`,
caught by the `except` branch (warning + empty frame); missing
`Motivo`/`CID` columns are back-filled with `''`; `reindex(columns=...,
fill_value='')` fills whole missing expected columns with `''`; the date
columns are parsed with `errors='coerce'`; rows whose
`Nome_do_Colaborador` is `NaN` are dropped, and `reset_index(drop=True)`
relabels. -/
def load_data (f : StoreFile) : List (Nat × Record) × Bool :=
  match f with
  | .missing => ([], false)
  | .unreadable => ([], true)
  | .readable t =>
    let cols := t.cols.map renameCol
    if ¬ cols.contains "Tipo" ∧ ¬ cols.contains "CID" then ([], true)
    else
      let recs := (t.rows.map (loadRec cols)).filter (fun r => ¬ r.nome = none)
      (recs.enum, false)

/-! ## The default listing order (tab5, src/main.py:429-438) -/

/-- The ordering used by `sort_values(by='Data_para_Ordenar',
ascending=False, na_position='last')`: valid dates descending, `NaT`
rows last. -/
def ordRel (a b : Nat × Record) : Prop :=
  match a.2.dataInicio, b.2.dataInicio with
  | some x, some y => y ≤ x
  | some _, none => True
  | none, some _ => False
  | none, none => True

instance : DecidableRel ordRel := fun a b => by
  unfold ordRel
  cases a.2.dataInicio <;> cases b.2.dataInicio <;> simp <;> infer_instance

instance : IsTotal (Nat × Record) ordRel where
  total a b := by
    unfold ordRel
    cases a.2.dataInicio <;> cases b.2.dataInicio <;> simp [le_total]

instance : IsTrans (Nat × Record) ordRel where
  trans a b c hab hbc := by
    unfold ordRel at *
    cases ha : a.2.dataInicio <;> cases hb : b.2.dataInicio <;>
      cases hc : c.2.dataInicio <;> simp_all
    omega

/-- The tab5 listing order: the session rows sorted most-recent-first
with missing/unparseable start dates last. -/
def tab5_sort (rs : List (Nat × Record)) : List (Nat × Record) :=
  rs.insertionSort ordRel

/-! ## Helper lemmas about the store representation -/

theorem snd_mem_of_mem_enum {α : Type} {p : Nat × α} {l : List α}
    (h : p ∈ l.enum) : p.2 ∈ l := by
  obtain ⟨i, x⟩ := p
  obtain ⟨hlt, hx⟩ := List.mem_enum h
  rw [show (i, x).2 = x from rfl, hx]
  exact List.getElem_mem hlt

theorem lookupRow_locWrite_self (rs : List (Nat × Record)) (i : Nat)
    (r : Record) : lookupRow (locWrite rs i r) i = some r := by
  unfold locWrite
  by_cases h : rs.any (fun p => p.1 = i)
  · simp only [h, if_true]
    induction rs with
    | nil => simp at h
    | cons p tl ih =>
      by_cases hp : p.1 = i
      · simp [lookupRow, List.find?, hp]
      · have htl : tl.any (fun q => q.1 = i) := by
          simp only [List.any_cons] at h
          rcases Bool.or_eq_true_iff.mp h with h1 | h2
          · exact absurd (by simpa using h1) hp
          · exact h2
        have := ih htl
        simpa [lookupRow, List.find?, hp] using this
  · simp only [h, if_false]
    induction rs with
    | nil => simp [lookupRow, List.find?]
    | cons p tl ih =>
      have hp : ¬ p.1 = i := by
        intro hcon
        exact h (by simp [List.any_cons, hcon])
      have htl : ¬ tl.any (fun q => q.1 = i) := by
        intro hcon
        exact h (by simp [List.any_cons, hcon])
      have := ih htl
      simpa [lookupRow, List.find?, hp, List.cons_append] using this

theorem mem_locWrite {rs : List (Nat × Record)} {i : Nat} {r : Record}
    {p : Nat × Record} (h : p ∈ locWrite rs i r) : p = (i, r) ∨ p ∈ rs := by
  unfold locWrite at h
  split at h
  · simp only [List.mem_map] at h
    obtain ⟨q, hq, hqe⟩ := h
    by_cases hqi : q.1 = i
    · left; rw [← hqe]; simp [hqi]
    · right; rw [← hqe]; simp only [if_neg hqi]; exact hq
  · rcases List.mem_append.mp h with h | h
    · right; exact h
    · left; simpa using h

/-! ## C1 — the date calculator -/

/-- C1: for every start date and every `dias ≥ 1`, `calcular_datas`
returns `end_date = start_date + (dias - 1)` days and `return_date =
end_date + 1` day under standard Gregorian calendar arithmetic; a 1-day
absence ends on its start date, `calcular_datas 2024-01-30 3 =
(2024-02-01, 2024-02-02)` (month rollover) and `calcular_datas
2024-02-28 2` ends on `2024-02-29` (2024 is a leap year). -/
theorem calcular_datas_spec (d dias : Int) (_h : 1 ≤ dias) :
    (calcular_datas d dias).1 = d + (dias - 1) ∧
    (calcular_datas d dias).2 = (calcular_datas d dias).1 + 1 ∧
    calcular_datas d 1 = (d, d + 1) ∧
    calcular_datas (daysFromCivil 2024 1 30) 3 =
      (daysFromCivil 2024 2 1, daysFromCivil 2024 2 2) ∧
    (calcular_datas (daysFromCivil 2024 2 28) 2).1 = daysFromCivil 2024 2 29 ∧
    isLeap 2024 = true ∧ daysInMonth 2024 2 = 29 := by
  refine ⟨rfl, rfl, ?_, by decide, by decide, by decide, by decide⟩
  simp [calcular_datas]

/-- Closed instance of `calcular_datas_spec` at the start date 2024-01-30
and `dias = 3`. -/
theorem calcular_datas_spec_witness :
    (calcular_datas (daysFromCivil 2024 1 30) 3).1 =
      daysFromCivil 2024 1 30 + (3 - 1) ∧
    (calcular_datas (daysFromCivil 2024 1 30) 3).2 =
      (calcular_datas (daysFromCivil 2024 1 30) 3).1 + 1 ∧
    calcular_datas (daysFromCivil 2024 1 30) 1 =
      (daysFromCivil 2024 1 30, daysFromCivil 2024 1 30 + 1) ∧
    calcular_datas (daysFromCivil 2024 1 30) 3 =
      (daysFromCivil 2024 2 1, daysFromCivil 2024 2 2) ∧
    (calcular_datas (daysFromCivil 2024 2 28) 2).1 = daysFromCivil 2024 2 29 ∧
    isLeap 2024 = true ∧ daysInMonth 2024 2 = 29 :=
  calcular_datas_spec (daysFromCivil 2024 1 30) 3 (by decide)

/-! ## C2 — adding a medical certificate normalizes the code -/

theorem add_derive_atestado (svc : Svc) (cache : Cache) (cid m : String) :
    add_derive svc cache "Atestado" cid m =
      (cid ++ " - " ++ (pesquisar_cid_cached svc cache cid).1, cid,
       (pesquisar_cid_cached svc cache cid).2.1,
       (pesquisar_cid_cached svc cache cid).2.2) := by
  simp [add_derive]

theorem add_record_rows (svc : Svc) (st : AppState) (nome : String)
    (d dias : Int) (tipo cid motivo : String) :
    (add_record svc st nome d dias tipo cid motivo).1.records.map Prod.snd =
      st.records.map Prod.snd ++
        [{ nome := some nome, dataInicio := some d, dias := some dias,
           dataFinal := some ((calcular_datas d dias).1),
           cid := some (add_derive svc st.cache tipo cid motivo).2.1,
           tipo := some tipo,
           motivo := some (add_derive svc st.cache tipo cid motivo).1 }] := by
  show (((st.records.map Prod.snd) ++ [_]).enum).map Prod.snd = _
  rw [List.enum_map_snd]

theorem submit_atestado_eq (svc : Svc) (st : AppState)
    (nomeIn : Option String) (d dias : Int) (c : String) :
    submit_atestado svc st nomeIn d dias c =
      if truthy (nome_final_of nomeIn) = true ∧ pyStrip (pyUpper c) ≠ "" then
        ((add_record svc st ((nome_final_of nomeIn).getD "") d dias
            "Atestado" (pyStrip (pyUpper c)) "").1, none,
         (add_record svc st ((nome_final_of nomeIn).getD "") d dias
            "Atestado" (pyStrip (pyUpper c)) "").2)
      else (st, some .validationError, 0) := rfl

/-- C2: whenever the Atestado add form accepts its input, the stored
record's `CID` is the input code uppercased and trimmed, its category is
`'Atestado'`, and its `Motivo` is exactly the normalized code, `" - "`,
then the `pesquisar_cid` lookup result for that code. -/
theorem submit_atestado_normalizes (svc : Svc) (st : AppState)
    (nomeIn : Option String) (d dias : Int) (c : String)
    (hok : (submit_atestado svc st nomeIn d dias c).2.1 = none) :
    ∃ rec : Record,
      (submit_atestado svc st nomeIn d dias c).1.records.map Prod.snd =
        st.records.map Prod.snd ++ [rec] ∧
      rec.cid = some (pyStrip (pyUpper c)) ∧
      rec.tipo = some "Atestado" ∧
      rec.motivo = some (pyStrip (pyUpper c) ++ " - " ++
        (pesquisar_cid_cached svc st.cache (pyStrip (pyUpper c))).1) := by
  rw [submit_atestado_eq] at hok ⊢
  split at hok
  case isTrue h =>
    rw [if_pos h]
    refine ⟨_, add_record_rows svc st _ d dias "Atestado" (pyStrip (pyUpper c)) "",
      ?_, rfl, ?_⟩
    · rw [add_derive_atestado]
    · rw [add_derive_atestado]
  case isFalse h => simp at hok

/-- A fixed external service used to instantiate the theorems on
concrete inputs. -/
def svcFixed : Svc := fun _ => SvcResult.ok "Dor lombar baixa"

def emptyState : AppState := { records := [], cache := [], persisted := [] }

/-- Closed instance of `submit_atestado_normalizes`: adding with code
`"m54"` stores `CID = "M54"` and `Motivo = "M54 - <lookup text>"`. -/
theorem submit_atestado_normalizes_witness :
    ∃ rec : Record,
      (submit_atestado svcFixed emptyState (some "Ana") 0 1 "m54").1.records.map Prod.snd =
        emptyState.records.map Prod.snd ++ [rec] ∧
      rec.cid = some (pyStrip (pyUpper "m54")) ∧
      rec.tipo = some "Atestado" ∧
      rec.motivo = some (pyStrip (pyUpper "m54") ++ " - " ++
        (pesquisar_cid_cached svcFixed emptyState.cache (pyStrip (pyUpper "m54"))).1) :=
  submit_atestado_normalizes svcFixed emptyState (some "Ana") 0 1 "m54" (by decide)

/-! ## C3 — update keeps the category, recomputes the reason only on a
CID change, and clears the CID for non-medical categories -/

/-- C3: updating an existing record through the edit form (which passes
the stored `Tipo` and `Motivo` back in) never changes the stored
category; when the record is an Atestado and the supplied CID differs
from the stored one the reason is recomputed as
`"{cid} - {pesquisar_cid(cid)}"`, otherwise the reason is kept exactly;
and for every non-Atestado category the stored CID is forced to `""`
whatever CID argument was passed. -/
theorem update_record_spec (svc : Svc) (st : AppState) (idx : Nat)
    (nome : String) (d dias : Int) (cid : String) (r : Record)
    (out : AppState × Nat)
    (hr : lookupRow st.records idx = some r)
    (hok : update_record svc st idx nome d dias cid r.tipo r.motivo = .ok out) :
    ∃ r', lookupRow out.1.records idx = some r' ∧
      r'.tipo = r.tipo ∧
      (r.tipo = some "Atestado" → ¬ r.cid = some cid →
        r'.motivo = some (cid ++ " - " ++ (pesquisar_cid_cached svc st.cache cid).1)) ∧
      (¬ (r.tipo = some "Atestado" ∧ ¬ r.cid = some cid) → r'.motivo = r.motivo) ∧
      (¬ r.tipo = some "Atestado" → r'.cid = some "") := by
  unfold update_record at hok
  by_cases ht : r.tipo = some "Atestado"
  · by_cases hc : r.cid = some cid
    · have hstep : update_step svc st idx cid r.tipo r.motivo =
          .ok (r.motivo, cid, st.cache, 0) := by
        unfold update_step
        rw [if_pos ht, hr]
        simp [hc]
      rw [hstep] at hok
      obtain rfl : _ = out := Except.ok.inj hok
      refine ⟨_, lookupRow_locWrite_self st.records idx _, rfl, ?_, ?_, ?_⟩
      · intro _ hcon; exact absurd hc (by simpa using hcon)
      · intro _; rfl
      · intro hcon; exact absurd ht hcon
    · have hstep : update_step svc st idx cid r.tipo r.motivo =
          .ok (some (cid ++ " - " ++ (pesquisar_cid_cached svc st.cache cid).1),
               cid, (pesquisar_cid_cached svc st.cache cid).2.1,
               (pesquisar_cid_cached svc st.cache cid).2.2) := by
        unfold update_step
        rw [if_pos ht, hr]
        simp [hc]
      rw [hstep] at hok
      obtain rfl : _ = out := Except.ok.inj hok
      refine ⟨_, lookupRow_locWrite_self st.records idx _, rfl, ?_, ?_, ?_⟩
      · intro _ _; rfl
      · intro hcon; exact absurd ⟨ht, hc⟩ hcon
      · intro hcon; exact absurd ht hcon
  · have hstep : update_step svc st idx cid r.tipo r.motivo =
        .ok (r.motivo, "", st.cache, 0) := by
      unfold update_step
      rw [if_neg ht]
    rw [hstep] at hok
    obtain rfl : _ = out := Except.ok.inj hok
    refine ⟨_, lookupRow_locWrite_self st.records idx _, rfl, ?_, ?_, ?_⟩
    · intro hcon; exact absurd hcon ht
    · intro _; rfl
    · intro _; rfl

/-- A one-Atestado-record state used to instantiate the update theorems. -/
def atestadoState : AppState :=
  { records := [(0, { nome := some "Ana", dataInicio := some 19737,
                      dias := some 3, dataFinal := some 19739,
                      cid := some "M54", tipo := some "Atestado",
                      motivo := some "M54 - Dor lombar baixa" })],
    cache := [], persisted := [] }

def atestadoRec : Record :=
  { nome := some "Ana", dataInicio := some 19737, dias := some 3,
    dataFinal := some 19739, cid := some "M54", tipo := some "Atestado",
    motivo := some "M54 - Dor lombar baixa" }

/-- Closed instance of `update_record_spec`: updating the stored Atestado
record with a different CID `"J11"`. -/
theorem update_record_spec_witness :
    ∃ r', lookupRow ((update_record svcFixed atestadoState 0 "Ana" 19737 3 "J11"
        atestadoRec.tipo atestadoRec.motivo).toOption.getD
          (({ records := [], cache := [], persisted := [] } : AppState), 0)).1.records 0 = some r' ∧
      r'.tipo = atestadoRec.tipo ∧
      (atestadoRec.tipo = some "Atestado" → ¬ atestadoRec.cid = some "J11" →
        r'.motivo = some ("J11" ++ " - " ++
          (pesquisar_cid_cached svcFixed atestadoState.cache "J11").1)) ∧
      (¬ (atestadoRec.tipo = some "Atestado" ∧ ¬ atestadoRec.cid = some "J11") →
        r'.motivo = atestadoRec.motivo) ∧
      (¬ atestadoRec.tipo = some "Atestado" → r'.cid = some "") := by
  have h := update_record_spec svcFixed atestadoState 0 "Ana" 19737 3 "J11"
    atestadoRec
    ((update_record svcFixed atestadoState 0 "Ana" 19737 3 "J11"
        atestadoRec.tipo atestadoRec.motivo).toOption.getD
          (({ records := [], cache := [], persisted := [] } : AppState), 0))
    (by decide) rfl
  exact h

/-! ## C4 — out-of-range positions -/

theorem lookupRow_eq_none {rs : List (Nat × Record)} {i : Nat}
    (h : rs.any (fun p => p.1 = i) = false) : lookupRow rs i = none := by
  unfold lookupRow
  rw [List.find?_eq_none.mpr]
  · rfl
  · intro x hx
    have := List.any_eq_false.mp h x hx
    simpa using this

def mkRec (n : String) : Record :=
  { nome := some n, dataInicio := some 0, dias := some 1,
    dataFinal := some 0, cid := some "", tipo := some "Falta",
    motivo := some "Falta" }

def fiveState : AppState :=
  { records := [(0, mkRec "A"), (1, mkRec "B"), (2, mkRec "C"),
                (3, mkRec "D"), (4, mkRec "E")],
    cache := [], persisted := [] }

def fourRecords : List (Nat × Record) :=
  [(0, mkRec "A"), (1, mkRec "B"), (2, mkRec "D"), (3, mkRec "E")]

def bancoState : AppState :=
  { records := [(0, { nome := some "Bob", dataInicio := some 0,
                      dias := some 1, dataFinal := some 0, cid := some "",
                      tipo := some "Banco de Horas",
                      motivo := some "Compensação de Banco de Horas" })],
    cache := [], persisted := [] }

/-- C4 fails as stated: on a 1-record store whose only row has label 0
and category `'Banco de Horas'`, an update addressed to the out-of-range
position 5 does *not* fail with `NotFound` — `df.loc` enlargement
appends a new row labelled 5, and the 2-row frame is persisted. -/
theorem out_of_range_update_enlarges :
    bancoState.records.any (fun p => p.1 = 5) = false ∧
    bancoState.records.length = 1 ∧
    (update_record svcFixed bancoState 5 "Bob" 0 1 ""
        (some "Banco de Horas") (some "Compensação de Banco de Horas")).toOption.map
      (fun out => (out.1.records.length, out.1.persisted.length)) = some (2, 2) := by
  refine ⟨rfl, rfl, rfl⟩

/-- C4 amended: an out-of-range delete always fails with the
`KeyError`/`NotFound` and changes nothing; an out-of-range update fails
with `NotFound` and changes nothing when the original category is
`'Atestado'` (the stored-CID read raises first); but for every other
original category an out-of-range update silently appends a new row
labelled with the stale position and persists it.  The 5-record delete
example of the claim behaves as stated: deleting position 2 leaves 4
records with the former position 3 now at position 2, and a repeat
delete at the now-invalid position 4 fails with `NotFound`. -/
theorem out_of_range_ops_spec (svc : Svc) (st : AppState) (idx : Nat)
    (hidx : st.records.any (fun p => p.1 = idx) = false) :
    (delete_record st idx).toOption = none ∧
    (∀ nome d dias cid mo,
      (update_record svc st idx nome d dias cid (some "Atestado") mo).toOption
        = none) ∧
    (∀ (nome : String) (d dias : Int) (cid : String) (tpo mo : Option String),
      ¬ tpo = some "Atestado" →
      (update_record svc st idx nome d dias cid tpo mo).toOption.map
          (fun out => out.1.records) =
        some (st.records ++
          [(idx, { nome := some nome, dataInicio := some d, dias := some dias,
                   dataFinal := some ((calcular_datas d dias).1),
                   cid := some "", tipo := tpo, motivo := mo })])) ∧
    (delete_record fiveState 2).toOption.map AppState.records =
      some fourRecords ∧
    lookupRow fourRecords 2 = some (mkRec "D") ∧
    (delete_record { records := fourRecords, cache := [], persisted := fourRecords } 4).toOption
      = none := by
  refine ⟨?_, ?_, ?_, rfl, rfl, rfl⟩
  · simp [delete_record, hidx, Except.toOption]
  · intro nome d dias cid mo
    have hstep : update_step svc st idx cid (some "Atestado") mo =
        .error .keyError := by
      unfold update_step
      rw [if_pos rfl, lookupRow_eq_none hidx]
    unfold update_record
    rw [hstep]
    rfl
  · intro nome d dias cid tpo mo htpo
    have hstep : update_step svc st idx cid tpo mo = .ok (mo, "", st.cache, 0) := by
      unfold update_step
      rw [if_neg htpo]
    unfold update_record
    rw [hstep]
    simp [locWrite, hidx, Except.toOption]

/-- Closed instance of `out_of_range_ops_spec` on the 1-record
`'Banco de Horas'` store at the out-of-range position 5. -/
theorem out_of_range_ops_spec_witness :
    (delete_record bancoState 5).toOption = none ∧
    (∀ nome d dias cid mo,
      (update_record svcFixed bancoState 5 nome d dias cid (some "Atestado") mo).toOption
        = none) ∧
    (∀ (nome : String) (d dias : Int) (cid : String) (tpo mo : Option String),
      ¬ tpo = some "Atestado" →
      (update_record svcFixed bancoState 5 nome d dias cid tpo mo).toOption.map
          (fun out => out.1.records) =
        some (bancoState.records ++
          [(5, { nome := some nome, dataInicio := some d, dias := some dias,
                 dataFinal := some ((calcular_datas d dias).1),
                 cid := some "", tipo := tpo, motivo := mo })])) ∧
    (delete_record fiveState 2).toOption.map AppState.records =
      some fourRecords ∧
    lookupRow fourRecords 2 = some (mkRec "D") ∧
    (delete_record { records := fourRecords, cache := [], persisted := fourRecords } 4).toOption
      = none :=
  out_of_range_ops_spec svcFixed bancoState 5 (by decide)

/-! ## C5 — loading and migration -/

theorem renameCol_idem (c : String) : renameCol (renameCol c) = renameCol c := by
  by_cases h1 : c = "Nome do Colaborador"
  · subst h1; decide
  by_cases h2 : c = "Data de Início"
  · subst h2; decide
  by_cases h3 : c = "Data Final"
  · subst h3; decide
  by_cases h4 : c = "Descricao CID"
  · subst h4; decide
  by_cases h5 : c = "Descricao_CID"
  · subst h5; decide
  by_cases h6 : c = "Descricao_do_CID"
  · subst h6; decide
  have hfix : renameCol c = c := by
    unfold renameCol
    rw [if_neg h1, if_neg h2, if_neg h3, if_neg h4, if_neg h5, if_neg h6]
  rw [hfix, hfix]

/-- A store file written under the old schema: old column names, no
`Tipo` column, a row with a non-empty CID, and a row with a missing
employee name. -/
def legacyTable : RawTable :=
  { cols := ["Nome do Colaborador", "Data de Início", "Dias", "Data Final",
             "CID", "Descricao_do_CID"],
    rows := [[some "Ana", some "2024-01-02", some "3", some "2024-01-04",
              some "M54", some "Dor lombar"],
             [none, some "2024-01-02", some "1", some "2024-01-02",
              some "", some "x"]] }

/-- What `load_data` makes of `legacyTable`'s surviving row. -/
def legacyLoadedRec : Record :=
  { nome := some "Ana", dataInicio := some (daysFromCivil 2024 1 2),
    dias := some 3, dataFinal := some (daysFromCivil 2024 1 4),
    cid := some "M54", tipo := some "Atestado", motivo := some "Dor lombar" }

/-- C5: a missing store file loads as an empty store without a warning;
an unreadable one loads as an empty store with the warning; legacy
column names are equivalent to current ones (loading a file whose header
has already been renamed gives the same result); when the `Tipo`
(category) column is absent every loaded row gets `Tipo = 'Atestado'`;
every loaded row has an employee name (name-less rows are dropped); and
the concrete legacy file above loads to exactly its one named row,
migrated, with `category = 'Atestado'` back-filled. -/
theorem load_data_spec (t : RawTable)
    (hTipo : (t.cols.map renameCol).contains "Tipo" = false) :
    load_data .missing = ([], false) ∧
    load_data .unreadable = ([], true) ∧
    load_data (.readable { cols := t.cols.map renameCol, rows := t.rows }) =
      load_data (.readable t) ∧
    (∀ p ∈ (load_data (.readable t)).1, p.2.tipo = some "Atestado") ∧
    (∀ p ∈ (load_data (.readable t)).1, ¬ p.2.nome = none) ∧
    load_data (.readable legacyTable) = ([(0, legacyLoadedRec)], false) := by
  have hcols : (t.cols.map renameCol).map renameCol = t.cols.map renameCol := by
    rw [List.map_map]
    exact List.map_congr_left (fun c _ => renameCol_idem c)
  refine ⟨rfl, rfl, ?_, ?_, ?_, by decide⟩
  · show (let cols := (t.cols.map renameCol).map renameCol
          if ¬ cols.contains "Tipo" ∧ ¬ cols.contains "CID" then ([], true)
          else
            let recs := (t.rows.map (loadRec cols)).filter (fun r => ¬ r.nome = none)
            (recs.enum, false)) = _
    rw [hcols]
    rfl
  · intro p hp
    simp only [load_data] at hp
    split at hp
    · simp at hp
    · have hmem := snd_mem_of_mem_enum hp
      have hmem2 := List.mem_of_mem_filter hmem
      obtain ⟨row, _, hrow⟩ := List.mem_map.mp hmem2
      rw [← hrow]
      show loadCell (t.cols.map renameCol) row "Tipo" = some "Atestado"
      unfold loadCell
      rw [if_pos ⟨rfl, by rw [hTipo]; decide⟩]
  · intro p hp
    simp only [load_data] at hp
    split at hp
    · simp at hp
    · have hmem := snd_mem_of_mem_enum hp
      have h2 := (List.mem_filter.mp hmem).2
      simpa using h2

/-- Closed instance of `load_data_spec` at the legacy table. -/
theorem load_data_spec_witness :
    load_data .missing = ([], false) ∧
    load_data .unreadable = ([], true) ∧
    load_data (.readable { cols := legacyTable.cols.map renameCol,
                           rows := legacyTable.rows }) =
      load_data (.readable legacyTable) ∧
    (∀ p ∈ (load_data (.readable legacyTable)).1, p.2.tipo = some "Atestado") ∧
    (∀ p ∈ (load_data (.readable legacyTable)).1, ¬ p.2.nome = none) ∧
    load_data (.readable legacyTable) = ([(0, legacyLoadedRec)], false) :=
  load_data_spec legacyTable (by decide)

/-! ## C6 — add validates its inputs and touches nothing on failure -/

/-- C6: each add form rejects its submission with the validation error
and returns the state unchanged (same in-memory records, same persisted
rows, no service call) whenever the employee name is empty (or
whitespace), whenever the Atestado form's CID normalizes to empty, and
whenever the Folga form's free-text reason strips to empty. -/
theorem add_validation_spec (svc : Svc) (st : AppState)
    (nomeIn : Option String) (d dias : Int) :
    (truthy (nome_final_of nomeIn) = false →
      (∀ c, submit_atestado svc st nomeIn d dias c =
        (st, some .validationError, 0)) ∧
      submit_banco svc st nomeIn d dias = (st, some .validationError, 0) ∧
      submit_falta svc st nomeIn d dias = (st, some .validationError, 0) ∧
      (∀ m, submit_folga svc st nomeIn d dias m =
        (st, some .validationError, 0))) ∧
    (∀ c, pyStrip (pyUpper c) = "" →
      submit_atestado svc st nomeIn d dias c = (st, some .validationError, 0)) ∧
    (∀ m, pyStrip m = "" →
      submit_folga svc st nomeIn d dias m = (st, some .validationError, 0)) := by
  refine ⟨fun hname => ⟨?_, ?_, ?_, ?_⟩, ?_, ?_⟩
  · intro c
    rw [submit_atestado_eq, if_neg]
    rintro ⟨h1, -⟩
    rw [hname] at h1
    exact absurd h1 (by decide)
  · unfold submit_banco
    simp [hname]
  · unfold submit_falta
    simp [hname]
  · intro m
    unfold submit_folga
    by_cases hm : pyStrip m = "" <;> simp [hm, hname]
  · intro c hc
    rw [submit_atestado_eq, if_neg]
    rintro ⟨-, h2⟩
    exact h2 hc
  · intro m hm
    unfold submit_folga
    simp [hm]

/-- Closed instances of `add_validation_spec`: an empty selectbox, an
empty text name, a whitespace name, a blank CID and a blank free-text
reason are all rejected with the state unchanged. -/
theorem add_validation_spec_witness :
    submit_atestado svcFixed emptyState (some "") 0 1 "M54" =
      (emptyState, some .validationError, 0) ∧
    submit_banco svcFixed emptyState none 0 1 =
      (emptyState, some .validationError, 0) ∧
    submit_falta svcFixed emptyState (some "   ") 0 1 =
      (emptyState, some .validationError, 0) ∧
    submit_folga svcFixed emptyState (some "") 0 1 "abc" =
      (emptyState, some .validationError, 0) ∧
    submit_atestado svcFixed emptyState (some "Ana") 0 1 "  " =
      (emptyState, some .validationError, 0) ∧
    submit_folga svcFixed emptyState (some "Ana") 0 1 " " =
      (emptyState, some .validationError, 0) := by
  refine ⟨((add_validation_spec svcFixed emptyState (some "") 0 1).1
      (by decide)).1 "M54",
    ((add_validation_spec svcFixed emptyState none 0 1).1 (by decide)).2.1,
    ((add_validation_spec svcFixed emptyState (some "   ") 0 1).1
      (by decide)).2.2.1,
    (((add_validation_spec svcFixed emptyState (some "") 0 1).1
      (by decide)).2.2.2) "abc",
    ((add_validation_spec svcFixed emptyState (some "Ana") 0 1).2.1) "  "
      (by decide),
    ((add_validation_spec svcFixed emptyState (some "Ana") 0 1).2.2) " "
      (by decide)⟩

/-! ## C7 — the category/CID invariant -/

/-- Does the record carry a non-empty medical code? -/
def cidNonEmpty (r : Record) : Bool :=
  match r.cid with
  | some s => s ≠ ""
  | none => false

/-- The data-model invariant: a non-empty `CID` implies category
`'Atestado'`, and every non-`'Atestado'` record has `CID = ""`. -/
def invariantR (r : Record) : Prop :=
  (cidNonEmpty r = true → r.tipo = some "Atestado") ∧
  (¬ r.tipo = some "Atestado" → r.cid = some "")

instance (r : Record) : Decidable (invariantR r) := by
  unfold invariantR; infer_instance

theorem invariant_of_tipo_atestado {r : Record}
    (h : r.tipo = some "Atestado") : invariantR r :=
  ⟨fun _ => h, fun hcon => absurd h hcon⟩

theorem invariant_of_cid_empty {r : Record} (h : r.cid = some "") :
    invariantR r := by
  refine ⟨?_, fun _ => h⟩
  intro hne
  exfalso
  have hfalse : cidNonEmpty r = false := by
    unfold cidNonEmpty
    rw [h]
    simp
  rw [hfalse] at hne
  exact absurd hne (by decide)

theorem add_derive_cid_empty (svc : Svc) (cache : Cache)
    {tipo : String} (cid m : String) (h : ¬ tipo = "Atestado") :
    (add_derive svc cache tipo cid m).2.1 = "" := by
  unfold add_derive
  rw [if_neg h]
  split_ifs <;> rfl

/-- Shape of every successful `update_record`: the written row keeps
`tipo_original`, and its saved CID is the supplied one only in the
Atestado case, `""` otherwise. -/
theorem update_record_ok_shape (svc : Svc) (st : AppState) (idx : Nat)
    (nome : String) (d dias : Int) (cid : String)
    (tpo mo : Option String) (out : AppState × Nat)
    (hok : update_record svc st idx nome d dias cid tpo mo = .ok out) :
    ∃ nm cs, out.1.records = locWrite st.records idx
      { nome := some nome, dataInicio := some d, dias := some dias,
        dataFinal := some ((calcular_datas d dias).1), cid := some cs,
        tipo := tpo, motivo := nm } ∧
      (tpo = some "Atestado" ∨ cs = "") := by
  unfold update_record at hok
  cases hstep : update_step svc st idx cid tpo mo with
  | error e => rw [hstep] at hok; exact absurd hok (by simp)
  | ok q =>
    obtain ⟨nm, cs, c1, n⟩ := q
    rw [hstep] at hok
    obtain rfl : _ = out := Except.ok.inj hok
    refine ⟨nm, cs, rfl, ?_⟩
    by_cases ht : tpo = some "Atestado"
    · left; exact ht
    · right
      unfold update_step at hstep
      rw [if_neg ht] at hstep
      have h2 : "" = cs := by
        simpa using congrArg (fun q => q.2.1) (Except.ok.inj hstep)
      exact h2.symm

/-- C7: every CRUD operation preserves the invariant that a record with
a non-empty medical code has category `'Atestado'` and every record of
any other category has `CID = ""`; moreover adding a
`'Banco de Horas'` record always stores the fixed reason
`"Compensação de Banco de Horas"` with an empty CID, and adding a
`'Falta'` record always stores the fixed reason `"Falta"` with an empty
CID, whatever extra input was supplied. -/
theorem crud_invariant_spec (svc : Svc) (st : AppState)
    (hinv : ∀ p ∈ st.records, invariantR p.2) :
    (∀ (nome : String) (d dias : Int) (tipo cid mo : String),
      ∀ p ∈ (add_record svc st nome d dias tipo cid mo).1.records,
        invariantR p.2) ∧
    (∀ idx out, delete_record st idx = .ok out →
      ∀ p ∈ out.records, invariantR p.2) ∧
    (∀ idx nome d dias cid tpo mo out,
      update_record svc st idx nome d dias cid tpo mo = .ok out →
      ∀ p ∈ out.1.records, invariantR p.2) ∧
    (∀ (nome : String) (d dias : Int) (cid mo : String),
      ∃ rec,
        (add_record svc st nome d dias "Banco de Horas" cid mo).1.records.map
          Prod.snd = st.records.map Prod.snd ++ [rec] ∧
        rec.motivo = some "Compensação de Banco de Horas" ∧
        rec.cid = some "") ∧
    (∀ (nome : String) (d dias : Int) (cid mo : String),
      ∃ rec,
        (add_record svc st nome d dias "Falta" cid mo).1.records.map
          Prod.snd = st.records.map Prod.snd ++ [rec] ∧
        rec.motivo = some "Falta" ∧ rec.cid = some "") := by
  have hold : ∀ r : Record, r ∈ st.records.map Prod.snd → invariantR r := by
    intro r hr
    obtain ⟨q, hq, hqe⟩ := List.mem_map.mp hr
    rw [← hqe]; exact hinv q hq
  refine ⟨?_, ?_, ?_, ?_, ?_⟩
  · intro nome d dias tipo cid mo p hp
    have h2 := snd_mem_of_mem_enum hp
    rcases List.mem_append.mp h2 with h3 | h3
    · exact hold _ h3
    · have hnovo := List.mem_singleton.mp h3
      rw [hnovo]
      by_cases htipo : tipo = "Atestado"
      · subst htipo
        exact invariant_of_tipo_atestado rfl
      · refine invariant_of_cid_empty ?_
        show some (add_derive svc st.cache tipo cid mo).2.1 = some ""
        rw [add_derive_cid_empty svc st.cache cid mo htipo]
  · intro idx out hok p hp
    unfold delete_record at hok
    split at hok
    · obtain rfl : _ = out := Except.ok.inj hok
      have h2 := snd_mem_of_mem_enum hp
      obtain ⟨q, hq, hqe⟩ := List.mem_map.mp h2
      rw [← hqe]
      exact hinv q (List.mem_of_mem_filter hq)
    · exact absurd hok (by simp)
  · intro idx nome d dias cid tpo mo out hok p hp
    obtain ⟨nm, cs, hrecs, hdisj⟩ :=
      update_record_ok_shape svc st idx nome d dias cid tpo mo out hok
    rw [hrecs] at hp
    rcases mem_locWrite hp with hcase | hcase
    · rw [hcase]
      rcases hdisj with hAt | hEmpty
      · exact invariant_of_tipo_atestado hAt
      · subst hEmpty
        exact invariant_of_cid_empty rfl
    · exact hinv p hcase
  · intro nome d dias cid mo
    exact ⟨_, add_record_rows svc st nome d dias "Banco de Horas" cid mo,
      rfl, rfl⟩
  · intro nome d dias cid mo
    exact ⟨_, add_record_rows svc st nome d dias "Falta" cid mo, rfl, rfl⟩

/-- Closed instance of `crud_invariant_spec` on the one-Atestado store:
the Banco de Horas fixed-reason conjunct evaluated concretely. -/
theorem crud_invariant_spec_witness :
    ∃ rec,
      (add_record svcFixed atestadoState "Bia" 0 2 "Banco de Horas" "X99"
        "ignored").1.records.map Prod.snd =
        atestadoState.records.map Prod.snd ++ [rec] ∧
      rec.motivo = some "Compensação de Banco de Horas" ∧
      rec.cid = some "" :=
  (crud_invariant_spec svcFixed atestadoState (by decide)).2.2.2.1
    "Bia" 0 2 "X99" "ignored"

/-! ## C8 — default listing order -/

/-- C8: the default listing is a permutation of the stored records in
which any earlier record has a later-or-equal start date than any later
record (descending), and no record with a missing/unparseable start
date ever precedes a record with a valid one. -/
theorem tab5_sort_spec (rs : List (Nat × Record)) :
    (tab5_sort rs).Perm rs ∧
    List.Pairwise (fun a b : Nat × Record =>
      (a.2.dataInicio = none → b.2.dataInicio = none) ∧
      (∀ x y : Int, a.2.dataInicio = some x → b.2.dataInicio = some y →
        y ≤ x)) (tab5_sort rs) := by
  constructor
  · exact List.perm_insertionSort ordRel rs
  · have hs : List.Pairwise ordRel (tab5_sort rs) :=
      List.sorted_insertionSort ordRel rs
    refine hs.imp ?_
    intro a b hab
    constructor
    · intro ha
      cases hb : b.2.dataInicio with
      | none => rfl
      | some y =>
        unfold ordRel at hab
        rw [ha, hb] at hab
        exact hab.elim
    · intro x y hx hy
      unfold ordRel at hab
      rw [hx, hy] at hab
      exact hab

/-! ## C9 — lookup caching across operations -/

/-- C9 fails as stated: starting from an empty store and cache, a first
Add of an Atestado with code `"M54"` invokes the service once — but
`add_record` ends with `st.cache_data.clear()`, so the cache is empty
afterwards and a second Add referencing the same code within the window
invokes the external service *again* (its call count is 1, not 0). -/
theorem two_adds_invoke_twice :
    (add_record svcFixed emptyState "Ana" 0 1 "Atestado" "M54" "").2 = 1 ∧
    (add_record svcFixed emptyState "Ana" 0 1 "Atestado" "M54" "").1.cache
      = [] ∧
    (add_record svcFixed
      (add_record svcFixed emptyState "Ana" 0 1 "Atestado" "M54" "").1
      "Bia" 0 1 "Atestado" "M54" "").2 = 1 :=
  ⟨rfl, rfl, rfl⟩

theorem pesquisar_cid_calls_one (svc : Svc) (c : String)
    (hcode : ¬ pyUpper (pyStrip c) = "") : (pesquisar_cid svc c).2 = 1 := by
  unfold pesquisar_cid
  rw [if_neg hcode]
  cases hsvc : svc (pyUpper (pyStrip c)) with
  | ok t =>
    show (if containsSub (pyStrip t) "CÓDIGO INVÁLIDO" = true ∨
        containsSub (pyStrip t) "NÃO ENCONTRADO" = true then
        ("Código não encontrado ou inválido.", 1)
      else (pyStrip t, 1)).2 = 1
    split_ifs <;> rfl
  | apiError e => rfl
  | otherError e => rfl

theorem pesquisar_cached_miss (svc : Svc) (cache : Cache) (c : String)
    (hmiss : cacheLookup cache c = none) :
    pesquisar_cid_cached svc cache c =
      ((pesquisar_cid svc c).1, (c, (pesquisar_cid svc c).1) :: cache,
       (pesquisar_cid svc c).2) := by
  unfold pesquisar_cid_cached
  rw [hmiss]

theorem pesquisar_cached_hit (svc : Svc) (cache : Cache) (c v : String)
    (hhit : cacheLookup cache c = some v) :
    pesquisar_cid_cached svc cache c = (v, cache, 0) := by
  unfold pesquisar_cid_cached
  rw [hhit]

/-- Any update referencing a code already present in the cache makes no
external service call (it is either served from the cache or skips the
lookup because the stored CID equals the supplied one). -/
theorem update_calls_zero (svc : Svc) (st2 : AppState) (j : Nat)
    (r2 : Record) (c : String) (nome2 : String) (d2 dias2 : Int)
    (out2 : AppState × Nat)
    (hhit : ∃ v, cacheLookup st2.cache c = some v)
    (hr2 : lookupRow st2.records j = some r2)
    (ht2 : r2.tipo = some "Atestado")
    (hok2 : update_record svc st2 j nome2 d2 dias2 c r2.tipo r2.motivo
      = .ok out2) :
    out2.2 = 0 := by
  obtain ⟨v, hv⟩ := hhit
  unfold update_record at hok2
  by_cases hc2 : r2.cid = some c
  · have hstep2 : update_step svc st2 j c r2.tipo r2.motivo =
        .ok (r2.motivo, c, st2.cache, 0) := by
      unfold update_step
      rw [if_pos ht2, hr2]
      simp [hc2]
    rw [hstep2] at hok2
    injection hok2 with h2
    rw [← h2]
  · have hstep2 : update_step svc st2 j c r2.tipo r2.motivo =
        .ok (some (c ++ " - " ++ v), c, st2.cache, 0) := by
      unfold update_step
      rw [if_pos ht2, hr2]
      simp [hc2, pesquisar_cached_hit svc st2.cache c v hv]
    rw [hstep2] at hok2
    injection hok2 with h2
    rw [← h2]

/-- C9 amended: `pesquisar_cid` results are memoized per code argument
for the TTL window, but `add_record` and `delete_record` end with
`st.cache_data.clear()`, so only Updates benefit from the cache across
operations.  Concretely: a first Update that looks a code up makes one
service call and caches the result; any second Update within the window
referencing the same code makes zero service calls; while every Add (and
every successful Delete) leaves the cache empty, so a repeated Add
re-invokes the service (see the counterexample). -/
theorem lookup_cache_spec (svc : Svc) (st : AppState) (i : Nat)
    (r : Record) (c : String) (nome : String) (d dias : Int)
    (out1 : AppState × Nat)
    (hr : lookupRow st.records i = some r)
    (ht : r.tipo = some "Atestado")
    (hne : ¬ r.cid = some c)
    (hmiss : cacheLookup st.cache c = none)
    (hcode : ¬ pyUpper (pyStrip c) = "")
    (hok1 : update_record svc st i nome d dias c r.tipo r.motivo = .ok out1) :
    out1.2 = 1 ∧
    cacheLookup out1.1.cache c = some (pesquisar_cid svc c).1 ∧
    (∀ j r2 nome2 d2 dias2 out2,
      lookupRow out1.1.records j = some r2 →
      r2.tipo = some "Atestado" →
      update_record svc out1.1 j nome2 d2 dias2 c r2.tipo r2.motivo
        = .ok out2 →
      out2.2 = 0) ∧
    (∀ (nome3 : String) (d3 dias3 : Int) (tipo cid mo : String),
      (add_record svc out1.1 nome3 d3 dias3 tipo cid mo).1.cache = []) ∧
    (∀ k out3, delete_record out1.1 k = .ok out3 → out3.cache = []) := by
  have hstep : update_step svc st i c r.tipo r.motivo =
      .ok (some (c ++ " - " ++ (pesquisar_cid svc c).1), c,
           (c, (pesquisar_cid svc c).1) :: st.cache,
           (pesquisar_cid svc c).2) := by
    unfold update_step
    rw [if_pos ht, hr]
    simp [hne, pesquisar_cached_miss svc st.cache c hmiss]
  unfold update_record at hok1
  rw [hstep] at hok1
  injection hok1 with hout
  have hcalls : out1.2 = (pesquisar_cid svc c).2 := by rw [← hout]
  have hcache : cacheLookup out1.1.cache c = some (pesquisar_cid svc c).1 := by
    rw [← hout]
    show cacheLookup ((c, (pesquisar_cid svc c).1) :: st.cache) c = _
    unfold cacheLookup
    rw [if_pos rfl]
  refine ⟨by rw [hcalls]; exact pesquisar_cid_calls_one svc c hcode,
    hcache, ?_, ?_, ?_⟩
  · intro j r2 nome2 d2 dias2 out2 hr2 ht2 hok2
    exact update_calls_zero svc out1.1 j r2 c nome2 d2 dias2 out2
      ⟨_, hcache⟩ hr2 ht2 hok2
  · intro nome3 d3 dias3 tipo cid mo
    rfl
  · intro k out3 hok3
    unfold delete_record at hok3
    split at hok3
    · injection hok3 with h3
      rw [← h3]
    · exact absurd hok3 (by simp)

/-- The state an update of the stored Atestado record to code `"J11"`
produces (used to instantiate `lookup_cache_spec`). -/
def c9out : AppState × Nat :=
  (update_record svcFixed atestadoState 0 "Ana" 19737 3 "J11"
    atestadoRec.tipo atestadoRec.motivo).toOption.getD (emptyState, 0)

/-- Closed instance of `lookup_cache_spec` at the one-Atestado store and
code `"J11"`. -/
theorem lookup_cache_spec_witness :
    c9out.2 = 1 ∧
    cacheLookup c9out.1.cache "J11" = some (pesquisar_cid svcFixed "J11").1 ∧
    (∀ j r2 nome2 d2 dias2 out2,
      lookupRow c9out.1.records j = some r2 →
      r2.tipo = some "Atestado" →
      update_record svcFixed c9out.1 j nome2 d2 dias2 "J11" r2.tipo r2.motivo
        = .ok out2 →
      out2.2 = 0) ∧
    (∀ (nome3 : String) (d3 dias3 : Int) (tipo cid mo : String),
      (add_record svcFixed c9out.1 nome3 d3 dias3 tipo cid mo).1.cache = []) ∧
    (∀ k out3, delete_record c9out.1 k = .ok out3 → out3.cache = []) :=
  lookup_cache_spec svcFixed atestadoState 0 atestadoRec "J11" "Ana" 19737 3
    c9out (by decide) (by decide) (by decide) (by decide) (by decide) rfl

/-! ## C10 — updating an Atestado with an empty code -/

/-- C10: on an existing Atestado record whose stored code is non-empty,
an update supplying the empty code succeeds (no validation error is
possible in `update_record`), performs the lookup on `""` — which
returns the `"N/A - Nenhum CID fornecido."` sentinel with zero external
service calls — and saves the record with `CID = ""` and
`Motivo = " - N/A - Nenhum CID fornecido."`. -/
theorem update_empty_cid_spec (svc : Svc) (st : AppState) (idx : Nat)
    (r : Record) (s : String) (nome : String) (d dias : Int)
    (hr : lookupRow st.records idx = some r)
    (ht : r.tipo = some "Atestado")
    (hcid : r.cid = some s) (hs : ¬ s = "")
    (hmiss : cacheLookup st.cache "" = none) :
    ∃ out, update_record svc st idx nome d dias "" r.tipo r.motivo
        = .ok out ∧
      out.2 = 0 ∧
      ∃ r', lookupRow out.1.records idx = some r' ∧
        r'.cid = some "" ∧
        r'.motivo = some " - N/A - Nenhum CID fornecido." := by
  have hne : ¬ r.cid = some "" := by
    rw [hcid]
    intro hcon
    exact hs (Option.some.inj hcon)
  have hstep : update_step svc st idx "" r.tipo r.motivo =
      .ok (some ("" ++ " - " ++ "N/A - Nenhum CID fornecido."), "",
           ("", "N/A - Nenhum CID fornecido.") :: st.cache, 0) := by
    have h0 : pesquisar_cid svc "" = ("N/A - Nenhum CID fornecido.", 0) := rfl
    unfold update_step
    rw [if_pos ht, hr]
    simp [hne, pesquisar_cached_miss svc st.cache "" hmiss, h0]
  unfold update_record
  rw [hstep]
  exact ⟨_, rfl, rfl, _, lookupRow_locWrite_self st.records idx _, rfl, rfl⟩

/-- Closed instance of `update_empty_cid_spec` at the one-Atestado
store. -/
theorem update_empty_cid_spec_witness :
    ∃ out, update_record svcFixed atestadoState 0 "Ana" 19737 3 ""
        atestadoRec.tipo atestadoRec.motivo = .ok out ∧
      out.2 = 0 ∧
      ∃ r', lookupRow out.1.records 0 = some r' ∧
        r'.cid = some "" ∧
        r'.motivo = some " - N/A - Nenhum CID fornecido." :=
  update_empty_cid_spec svcFixed atestadoState 0 atestadoRec "M54" "Ana"
    19737 3 (by decide) (by decide) (by decide) (by decide) (by decide)
